import Mathlib

/-!
Shallow embedding of the pricing engines of the jewelry quote application.

Numeric model: Python floats are embedded as exact rationals (ℚ); Python
`round` is round-half-to-even (banker's rounding), embedded as `py_round`.
Dictionaries with `.get(key, default)` access are embedded as total
functions or as record fields whose default value is the `.get` default.
Display-only numeric formatting inside some labels of the first engine
(`src/pricing.py`) is omitted from those label strings; no claim reads them.
Date arithmetic (`valid_until`) is likewise omitted: it is I/O-adjacent and
no claim mentions it.

Two engines are embedded:
  * `compute_quote_for_metal` / `compute_quote_multi`
    from src/jewelry_quote_app_v2/pricing.py  (the "v2" engine), and
  * `compute_quote` from src/pricing.py       (the "v1" engine).
-/

namespace KCJ

/-- Python `str.lower` (ASCII, as used by the sources). -/
def py_lower (s : String) : String := ⟨s.data.map Char.toLower⟩

/-- Python `str.upper` (ASCII, as used by the sources). -/
def py_upper (s : String) : String := ⟨s.data.map Char.toUpper⟩

/-- Character-list core of `str.startswith`. -/
def chars_startswith : List Char → List Char → Bool
  | _, [] => true
  | [], _ :: _ => false
  | c :: cs, d :: ds => c == d && chars_startswith cs ds

/-- Python `str.startswith`. -/
def py_startswith (s p : String) : Bool := chars_startswith s.data p.data

/-- Python `str.strip` (whitespace from both ends). -/
def py_strip (s : String) : String :=
  ⟨((s.data.dropWhile Char.isWhitespace).reverse.dropWhile
      Char.isWhitespace).reverse⟩

/-- Python `round` on an exact rational: round half to even. -/
def py_round (x : ℚ) : ℤ :=
  let f : ℤ := ⌊x⌋
  if x - f < 1/2 then f
  else if 1/2 < x - f then f + 1
  else if f % 2 = 0 then f else f + 1

/-- `_round_nearest_5` from src/jewelry_quote_app_v2/pricing.py:
`round(x / 5.0) * 5.0`. -/
def round_nearest_5 (x : ℚ) : ℚ := (py_round (x / 5) : ℚ) * 5

/-- `round_money` from src/jewelry_quote_app_v2/pricing.py: normalises the
rule string (`(rule or "none").strip().lower()`) then rounds. -/
def round_money (x : ℚ) (rule : String) : ℚ :=
  let r := py_lower (py_strip (if rule = "" then "none" else rule))
  if r = "nearest_dollar" then (py_round x : ℚ)
  else if r = "nearest_5" then round_nearest_5 x
  else x

/-- `GRAMS_TO_DWT = 0.643` from src/jewelry_quote_app_v2/pricing.py. -/
def GRAMS_TO_DWT : ℚ := 643/1000

/-- `weight_to_dwt` from src/jewelry_quote_app_v2/pricing.py:
`unit = (unit or "DWT").strip()`; grams multiply by 0.643, anything else is
returned unchanged. -/
def weight_to_dwt (weight_value : ℚ) (unit : String) : ℚ :=
  let u := py_strip (if unit = "" then "DWT" else unit)
  if py_startswith (py_lower u) "gram" then weight_value * GRAMS_TO_DWT
  else weight_value

/-- `metal_key.upper().startswith("PLAT")`, used by both engines. -/
def is_platinum_key (k : String) : Bool := py_startswith (py_upper k) "PLAT"

/-- The `meta` dict attached to the metal line item (v2 engine). -/
structure MetalMeta where
  input_weight_value : ℚ
  input_weight_unit : String
  computed_dwt : ℚ
  rate_per_dwt : ℚ
deriving DecidableEq, Repr

/-- A detail row of the aggregated trim-stone / trim-setting lines
(v2 engine): `{desc, qty, price_each|rate, amount}`. -/
structure DetailRow where
  desc : String
  qty : ℤ
  per_unit : ℚ
  amount : ℚ
deriving DecidableEq, Repr

/-- A line item emitted by the v2 engine.  `meta` is present exactly on the
metal line, `customer_supplied` exactly on the center-stone line, `details`
non-trivially on the aggregated trim lines. -/
structure LineItem where
  label : String
  amount : ℚ
  taxable : Bool
  kind : String
  meta : Option MetalMeta := none
  customer_supplied : Option Bool := none
  details : List DetailRow := []
deriving DecidableEq, Repr

/-- v2 settings (`settings.get(..., default)` defaults baked in;
`metals_retail_per_dwt` embeds `rate_table.get(metal_key, 0.0) or 0.0` as a
total function). -/
structure Settings where
  tax_rate : ℚ := 0
  deposit_rate : ℚ := 1/2
  rounding : String := "none"
  metals_retail_per_dwt : String → ℚ
  platinum_density_ratio : ℚ := 1
  platinum_extra_fee : ℚ := 0

/-- One row of `quote_core["trim_stones"]` (v2 engine). -/
structure TrimRow where
  desc : String := ""
  qty : ℤ := 0
  price_each : ℚ := 0
deriving DecidableEq, Repr

/-- One row of `quote_core["trim_setting_lines"]` (v2 engine). -/
structure SettingRow where
  desc : String := ""
  qty : ℤ := 0
  rate : ℚ := 0
deriving DecidableEq, Repr

/-- The `quote_core` dict of the v2 engine, with the `.get` defaults of
src/jewelry_quote_app_v2/pricing.py as field defaults.  An absent / `None`
`trim_setting_lines` is the empty list (Python treats both as falsy). -/
structure QuoteCore where
  cad_fee : ℚ := 0
  tax_cad : Bool := true
  metal_weight_value : ℚ := 0
  metal_weight_unit : String := "DWT"
  tax_metal : Bool := true
  add_platinum_extra_fee : Bool := true
  center_stone_desc : String := ""
  center_stone_price : ℚ := 0
  tax_center_stone : Bool := true
  center_stone_customer_supplied : Bool := false
  trim_stones : List TrimRow := []
  tax_trim_stones : Bool := true
  center_setting_labor : ℚ := 0
  tax_labor : Bool := true
  trim_setting_lines : List SettingRow := []
  trim_setting_qty : ℤ := 0
  trim_setting_rate : ℚ := 0
  appraisal : ℚ := 0
  tax_appraisal : Bool := true
  engraving : ℚ := 0
  tax_engraving : Bool := true
  shipping : ℚ := 0
  tax_shipping : Bool := false
  rhodium : ℚ := 0
  tax_rhodium : Bool := true

/-- CAD / design fee line (v2): emitted iff `cad_fee > 0`. -/
def cad_items (q : QuoteCore) : List LineItem :=
  if 0 < q.cad_fee then
    [{ label := "CAD / design fee", amount := q.cad_fee,
       taxable := q.tax_cad, kind := "cad" }]
  else []

/-- `base_dwt = weight_to_dwt(metal_weight_value, metal_weight_unit)`. -/
def base_dwt (q : QuoteCore) : ℚ :=
  weight_to_dwt q.metal_weight_value q.metal_weight_unit

/-- The local `dwt` of `compute_quote_for_metal`: base weight, scaled by
`platinum_density_ratio` when the key is platinum-family. -/
def effective_dwt (s : Settings) (q : QuoteCore) (metal_key : String) : ℚ :=
  if is_platinum_key metal_key then base_dwt q * s.platinum_density_ratio
  else base_dwt q

/-- The local `metal_amt`: `dwt * rate`, plus the flat platinum extra fee
when the key is platinum-family and the per-quote toggle is on. -/
def metal_amt (s : Settings) (q : QuoteCore) (metal_key : String) : ℚ :=
  let amt := effective_dwt s q metal_key * s.metals_retail_per_dwt metal_key
  if is_platinum_key metal_key && q.add_platinum_extra_fee then
    amt + s.platinum_extra_fee
  else amt

/-- Metal line (v2): emitted iff `base_dwt > 0`, carrying audit metadata. -/
def metal_items (s : Settings) (q : QuoteCore) (metal_key : String) :
    List LineItem :=
  if 0 < base_dwt q then
    [{ label := "Metal (" ++ metal_key ++ ")",
       amount := metal_amt s q metal_key,
       taxable := q.tax_metal, kind := "metal",
       meta := some { input_weight_value := q.metal_weight_value,
                      input_weight_unit := q.metal_weight_unit,
                      computed_dwt := effective_dwt s q metal_key,
                      rate_per_dwt := s.metals_retail_per_dwt metal_key } }]
  else []

/-- Center-stone line (v2): emitted iff the stripped description is
non-empty or the price is positive. -/
def center_items (q : QuoteCore) : List LineItem :=
  let desc := py_strip q.center_stone_desc
  if desc ≠ "" ∨ 0 < q.center_stone_price then
    [{ label := if desc ≠ "" then "Center stone: " ++ desc
                else "Center stone",
       amount := q.center_stone_price, taxable := q.tax_center_stone,
       kind := "center_stone",
       customer_supplied := some q.center_stone_customer_supplied }]
  else []

/-- The `trim_total` accumulator of the v2 trim-stone loop: rows with
`qty <= 0 or each <= 0` are skipped. -/
def trim_total : List TrimRow → ℚ
  | [] => 0
  | r :: rs =>
    (if 0 < r.qty ∧ 0 < r.price_each then (r.qty : ℚ) * r.price_each else 0)
      + trim_total rs

/-- The `trim_details` accumulator of the v2 trim-stone loop. -/
def trim_details : List TrimRow → List DetailRow
  | [] => []
  | r :: rs =>
    if 0 < r.qty ∧ 0 < r.price_each then
      { desc := py_strip r.desc, qty := r.qty, per_unit := r.price_each,
        amount := (r.qty : ℚ) * r.price_each } :: trim_details rs
    else trim_details rs

/-- Aggregated "Trim stones" line (v2): emitted iff the total is positive. -/
def trim_items (q : QuoteCore) : List LineItem :=
  if 0 < trim_total q.trim_stones then
    [{ label := "Trim stones", amount := trim_total q.trim_stones,
       taxable := q.tax_trim_stones, kind := "trim_stones",
       details := trim_details q.trim_stones }]
  else []

/-- "Setting labor (center)" line (v2): emitted iff the amount is positive. -/
def center_labor_items (q : QuoteCore) : List LineItem :=
  if 0 < q.center_setting_labor then
    [{ label := "Setting labor (center)", amount := q.center_setting_labor,
       taxable := q.tax_labor, kind := "labor_center_setting" }]
  else []

/-- The effective trim-setting rows: the legacy single `qty`/`rate` pair is
used only when no multi-line data is present. -/
def trim_setting_source (q : QuoteCore) : List SettingRow :=
  if q.trim_setting_lines = [] ∧ 0 < q.trim_setting_qty ∧
      0 < q.trim_setting_rate then
    [{ desc := "", qty := q.trim_setting_qty, rate := q.trim_setting_rate }]
  else q.trim_setting_lines

/-- The `trim_setting_total` accumulator of the v2 trim-setting loop. -/
def setting_total : List SettingRow → ℚ
  | [] => 0
  | r :: rs =>
    (if 0 < r.qty ∧ 0 < r.rate then (r.qty : ℚ) * r.rate else 0)
      + setting_total rs

/-- The `details` accumulator of the v2 trim-setting loop. -/
def setting_details : List SettingRow → List DetailRow
  | [] => []
  | r :: rs =>
    if 0 < r.qty ∧ 0 < r.rate then
      { desc := py_strip r.desc, qty := r.qty, per_unit := r.rate,
        amount := (r.qty : ℚ) * r.rate } :: setting_details rs
    else setting_details rs

/-- "Setting labor (trim)" line (v2): emitted iff the total is positive. -/
def trim_setting_items (q : QuoteCore) : List LineItem :=
  if 0 < setting_total (trim_setting_source q) then
    [{ label := "Setting labor (trim)",
       amount := setting_total (trim_setting_source q),
       taxable := q.tax_labor, kind := "labor_trim_setting",
       details := setting_details (trim_setting_source q) }]
  else []

/-- The four `_add_charge` calls (v2): appraisal, engraving, shipping
(default non-taxable), rhodium; each emitted iff its value is positive. -/
def charge_items (q : QuoteCore) : List LineItem :=
  (if 0 < q.appraisal then
    [{ label := "Appraisal (outside components)", amount := q.appraisal,
       taxable := q.tax_appraisal, kind := "appraisal" }] else [])
  ++ (if 0 < q.engraving then
    [{ label := "Engraving", amount := q.engraving,
       taxable := q.tax_engraving, kind := "engraving" }] else [])
  ++ (if 0 < q.shipping then
    [{ label := "Shipping", amount := q.shipping,
       taxable := q.tax_shipping, kind := "shipping" }] else [])
  ++ (if 0 < q.rhodium then
    [{ label := "Rhodium plating", amount := q.rhodium,
       taxable := q.tax_rhodium, kind := "rhodium" }] else [])

/-- The full ordered line-item list built by `compute_quote_for_metal`. -/
def quote_line_items (s : Settings) (q : QuoteCore) (metal_key : String) :
    List LineItem :=
  cad_items q ++ metal_items s q metal_key ++ center_items q ++ trim_items q
    ++ center_labor_items q ++ trim_setting_items q ++ charge_items q

/-- `sum(li["amount"] for li in line_items)`. -/
def items_sum (l : List LineItem) : ℚ := (l.map LineItem.amount).sum

/-- `sum(li["amount"] for li in line_items if bool(li.get("taxable", False)))`. -/
def taxable_sum (l : List LineItem) : ℚ :=
  ((l.filter LineItem.taxable).map LineItem.amount).sum

/-- The quote returned by `compute_quote_for_metal` (v2). -/
structure Quote where
  metal_key : String
  line_items : List LineItem
  subtotal_pre_tax : ℚ
  rounded_subtotal_pre_tax : ℚ
  taxable_subtotal_pre_tax : ℚ
  tax_rate : ℚ
  tax : ℚ
  total_with_tax : ℚ
  deposit_rate : ℚ
  deposit : ℚ
  rounding_rule : String
deriving DecidableEq, Repr

/-- `compute_quote_for_metal` from src/jewelry_quote_app_v2/pricing.py. -/
def compute_quote_for_metal (s : Settings) (q : QuoteCore)
    (metal_key : String) : Quote :=
  let items := quote_line_items s q metal_key
  let subtotal := items_sum items
  let taxable := taxable_sum items
  { metal_key := metal_key
    line_items := items
    subtotal_pre_tax := subtotal
    rounded_subtotal_pre_tax := round_money subtotal s.rounding
    taxable_subtotal_pre_tax := taxable
    tax_rate := s.tax_rate
    tax := taxable * s.tax_rate
    total_with_tax := subtotal + taxable * s.tax_rate
    deposit_rate := s.deposit_rate
    deposit := subtotal * s.deposit_rate
    rounding_rule := s.rounding }

/-- The `options` loop of `compute_quote_multi`. -/
def multi_options (s : Settings) (q : QuoteCore) : List String → List Quote
  | [] => []
  | k :: ks => compute_quote_for_metal s q k :: multi_options s q ks

/-- The dict returned by `compute_quote_multi`. -/
structure MultiQuote where
  options : List Quote
deriving DecidableEq, Repr

/-- `compute_quote_multi` from src/jewelry_quote_app_v2/pricing.py. -/
def compute_quote_multi (s : Settings) (q : QuoteCore)
    (metal_keys : List String) : MultiQuote :=
  { options := multi_options s q metal_keys }

/-! ### The v1 engine: `compute_quote` from src/pricing.py. -/

/-- One row of `settings["trim_table"]` (v1). -/
structure TrimTableRow where
  mm : ℚ
  ct_each : ℚ
  retail_per_ct : ℚ
deriving DecidableEq, Repr

/-- v1 settings.  The fee fields embed `settings["fees"]`; the four labor
fields embed the buckets of `settings["labor_rates"]` as partial lookup
functions (`style in bucket` / `bucket[style]`). -/
structure SettingsV1 where
  rounding : String := "nearest_dollar"
  tax_rate : ℚ := 0
  deposit_rate : ℚ := 1/2
  metals : String → ℚ
  platinum_casting_fee : ℚ := 0
  rhodium_fee : ℚ := 0
  polishing_fee : ℚ := 0
  engraving_fee : ℚ := 0
  shipping_fee : ℚ := 0
  trim_table : List TrimTableRow := []
  round_center : String → Option ℚ := fun _ => none
  fancy_center : String → Option ℚ := fun _ => none
  round_trim : String → Option ℚ := fun _ => none
  fancy_trim : String → Option ℚ := fun _ => none

/-- `_round_money` from src/pricing.py (only `nearest_dollar` rounds). -/
def round_money_v1 (s : SettingsV1) (x : ℚ) : ℚ :=
  if s.rounding = "nearest_dollar" then (py_round x : ℚ) else x

/-- `_round_to_5` from src/pricing.py. -/
def round_to_5 (x : ℚ) : ℚ := (py_round (x / 5) : ℚ) * 5

/-- `_trim_row_for_mm`: first row of the table whose mm equals the query. -/
def trim_row_for_mm (s : SettingsV1) (mm : ℚ) : Option TrimTableRow :=
  s.trim_table.find? (fun r => r.mm == mm)

/-- `_rate_for_style`: fixed-priority lookup across the four buckets. -/
def rate_for_style (s : SettingsV1) (style : String) : ℚ :=
  match s.round_center style with
  | some r => r
  | none =>
    match s.fancy_center style with
    | some r => r
    | none =>
      match s.round_trim style with
      | some r => r
      | none =>
        match s.fancy_trim style with
        | some r => r
        | none => 0

/-- A tuple appended to `trim_details` (v1):
`(mm, qty, total_ct, retail_per_ct, price)`. -/
structure TrimDetailV1 where
  mm : ℚ
  qty : ℤ
  total_ct : ℚ
  retail_per_ct : ℚ
  price : ℚ
deriving DecidableEq, Repr

/-- A v1 line item.  `taxable := none` models a dict with no "taxable" key
(the lab / natural / colored center-stone lines omit it). -/
structure LineItemV1 where
  label : String
  amount : ℚ
  taxable : Option Bool := none
  details : List TrimDetailV1 := []
deriving DecidableEq, Repr

/-- The `center` dict of `compute_quote` (v1), with its `.get` defaults. -/
structure CenterV1 where
  ctype : String := "None"
  ct : ℚ := 0
  price_per_ct : ℚ := 0
  cost : ℚ := 0
  markup : ℚ := 0
  label : String := "Center stone"
  price : ℚ := 0
  taxable : Bool := true

/-- One entry of `trim["items"]` (v1).  A `None` override is 0; the code
uses Python truthiness (`override or row["retail_per_ct"]`). -/
structure TrimItemV1 where
  mm : ℚ := 0
  qty : ℤ := 0
  retail_per_ct_override : ℚ := 0

/-- The `trim` dict of `compute_quote` (v1). -/
structure TrimV1 where
  enabled : Bool := false
  items : List TrimItemV1 := []

/-- The `labor` dict of `compute_quote` (v1). -/
structure LaborV1 where
  center_setting_style : String := "None"
  center_setting_qty : ℤ := 0
  trim_setting_style : String := "None"
  trim_setting_qty : ℤ := 0

/-- The `misc` dict of `compute_quote` (v1). -/
structure MiscV1 where
  rhodium : Bool := false
  polishing : Bool := false
  engraving : Bool := false
  shipping : Bool := false
  amount : ℚ := 0
  description : String := ""
  taxable : Bool := true

/-- The keyword arguments of `compute_quote` (v1) bundled into one record
(identity / date fields that only pass through are omitted). -/
structure JobV1 where
  cad_fee : ℚ := 0
  metal_type : String := ""
  metal_weight_value : ℚ := 0
  metal_weight_unit : String := "DWT"
  add_platinum_casting : Bool := false
  center : CenterV1 := {}
  trim : TrimV1 := {}
  labor : LaborV1 := {}
  misc : MiscV1 := {}

/-- v1 CAD line: emitted iff `cad_fee > 0`, amount rounded per item. -/
def cad_items_v1 (s : SettingsV1) (j : JobV1) : List LineItemV1 :=
  if 0 < j.cad_fee then
    [{ label := "CAD / design fee", amount := round_money_v1 s j.cad_fee,
       taxable := some true }]
  else []

/-- The v1 `dwt` local: grams convert with the 0.643 sheet factor. -/
def metal_dwt_v1 (j : JobV1) : ℚ :=
  if j.metal_weight_unit = "Grams" then j.metal_weight_value * GRAMS_TO_DWT
  else j.metal_weight_value

/-- The v1 `metal_amount` local, including the optional platinum casting
fee. -/
def metal_amount_v1 (s : SettingsV1) (j : JobV1) : ℚ :=
  let amt := s.metals j.metal_type * metal_dwt_v1 j
  if j.add_platinum_casting && is_platinum_key j.metal_type then
    amt + s.platinum_casting_fee
  else amt

/-- v1 metal line: emitted iff the raw weight value is positive
(`if metal_weight_value and metal_weight_value > 0`). -/
def metal_items_v1 (s : SettingsV1) (j : JobV1) : List LineItemV1 :=
  if 0 < j.metal_weight_value then
    [{ label := "Metal (" ++ j.metal_type ++ ")",
       amount := round_money_v1 s (metal_amount_v1 s j),
       taxable := some true }]
  else []

/-- v1 center-stone line: branch on the center type string; the three
computed modes are gated on `amount > 0` and omit the taxable key, the
custom mode is gated on `price > 0`.  Numeric display formatting inside the
labels is omitted. -/
def center_items_v1 (s : SettingsV1) (c : CenterV1) : List LineItemV1 :=
  if c.ctype = "Lab diamond (price/ct by range)" then
    (if 0 < c.ct * c.price_per_ct then
      [{ label := "Center stone (lab)",
         amount := round_money_v1 s (c.ct * c.price_per_ct) }] else [])
  else if c.ctype = "Natural diamond (cost x markup)" then
    (if 0 < c.cost * c.markup then
      [{ label := "Center stone (natural)",
         amount := round_money_v1 s (c.cost * c.markup) }] else [])
  else if c.ctype = "Colored / calibrated (cost x markup)" then
    (if 0 < c.cost * c.markup then
      [{ label := "Center stone (colored)",
         amount := round_money_v1 s (c.cost * c.markup) }] else [])
  else if c.ctype = "Custom line item" then
    (if 0 < c.price then
      [{ label := c.label, amount := round_money_v1 s c.price,
         taxable := some c.taxable }] else [])
  else []

/-- The `trim_total` accumulator of the v1 trim loop: zero/negative
quantities and unresolvable mm sizes contribute nothing. -/
def trim_total_v1 (s : SettingsV1) : List TrimItemV1 → ℚ
  | [] => 0
  | it :: rest =>
    (if 0 < it.qty then
      match trim_row_for_mm s it.mm with
      | some row =>
        (row.ct_each * it.qty) *
          (if it.retail_per_ct_override = 0 then row.retail_per_ct
           else it.retail_per_ct_override)
      | none => 0
     else 0) + trim_total_v1 s rest

/-- The `trim_details` accumulator of the v1 trim loop. -/
def trim_details_v1 (s : SettingsV1) : List TrimItemV1 → List TrimDetailV1
  | [] => []
  | it :: rest =>
    (if 0 < it.qty then
      match trim_row_for_mm s it.mm with
      | some row =>
        [{ mm := it.mm, qty := it.qty, total_ct := row.ct_each * it.qty,
           retail_per_ct := if it.retail_per_ct_override = 0 then
               row.retail_per_ct else it.retail_per_ct_override,
           price := (row.ct_each * it.qty) *
             (if it.retail_per_ct_override = 0 then row.retail_per_ct
              else it.retail_per_ct_override) }]
      | none => []
     else []) ++ trim_details_v1 s rest

/-- v1 aggregated "Trim stones" line: the loop runs only when trim is
enabled with a non-empty item list, and the line is emitted iff the total
is positive. -/
def trim_items_v1 (s : SettingsV1) (t : TrimV1) : List LineItemV1 :=
  if t.enabled && !t.items.isEmpty then
    (if 0 < trim_total_v1 s t.items then
      [{ label := "Trim stones",
         amount := round_money_v1 s (trim_total_v1 s t.items),
         taxable := some true, details := trim_details_v1 s t.items }]
     else [])
  else []

/-- v1 setting-labor lines: center then trim, each gated on a style that is
non-empty and not "None" and on a positive amount. -/
def labor_items_v1 (s : SettingsV1) (l : LaborV1) : List LineItemV1 :=
  (if l.center_setting_style ≠ "" ∧ l.center_setting_style ≠ "None" then
    (if 0 < rate_for_style s l.center_setting_style * l.center_setting_qty
     then
      [{ label := "Set center stone (" ++ l.center_setting_style ++ ")",
         amount := round_money_v1 s
           (rate_for_style s l.center_setting_style * l.center_setting_qty),
         taxable := some true }]
     else [])
   else [])
  ++ (if l.trim_setting_style ≠ "" ∧ l.trim_setting_style ≠ "None" then
    (if 0 < rate_for_style s l.trim_setting_style * l.trim_setting_qty then
      [{ label := "Set trim stones (" ++ l.trim_setting_style ++ ")",
         amount := round_money_v1 s
           (rate_for_style s l.trim_setting_style * l.trim_setting_qty),
         taxable := some true }]
     else [])
   else [])

/-- v1 finishing / misc lines (note: v1 marks shipping taxable). -/
def misc_items_v1 (s : SettingsV1) (m : MiscV1) : List LineItemV1 :=
  (if m.rhodium then
    [{ label := "Rhodium", amount := round_money_v1 s s.rhodium_fee,
       taxable := some true }] else [])
  ++ (if m.polishing then
    [{ label := "Polishing / finishing",
       amount := round_money_v1 s s.polishing_fee,
       taxable := some true }] else [])
  ++ (if m.engraving then
    [{ label := "Engraving", amount := round_money_v1 s s.engraving_fee,
       taxable := some true }] else [])
  ++ (if m.shipping then
    [{ label := "Shipping", amount := round_money_v1 s s.shipping_fee,
       taxable := some true }] else [])
  ++ (if 0 < m.amount then
    [{ label := if py_strip m.description ≠ "" then
          "Misc.: " ++ py_strip m.description else "Misc.",
       amount := round_money_v1 s m.amount,
       taxable := some m.taxable }] else [])

/-- The full ordered line-item list built by `compute_quote` (v1). -/
def line_items_v1 (s : SettingsV1) (j : JobV1) : List LineItemV1 :=
  cad_items_v1 s j ++ metal_items_v1 s j ++ center_items_v1 s j.center
    ++ trim_items_v1 s j.trim ++ labor_items_v1 s j.labor
    ++ misc_items_v1 s j.misc

/-- `sum(li["amount"] for li in line_items)` (v1). -/
def items_sum_v1 (l : List LineItemV1) : ℚ := (l.map LineItemV1.amount).sum

/-- Sum of the amounts of the v1 items whose taxable flag is present and
true (`li.get("taxable", False)` semantics). -/
def taxable_sum_v1 (l : List LineItemV1) : ℚ :=
  ((l.filter (fun li => li.taxable == some true)).map LineItemV1.amount).sum

/-- The quote returned by `compute_quote` (v1); pass-through identity and
date fields are omitted. -/
structure QuoteV1 where
  line_items : List LineItemV1
  subtotal : ℚ
  tax : ℚ
  raw_total : ℚ
  total : ℚ
  deposit : ℚ
  tax_rate : ℚ
  deposit_rate : ℚ
deriving DecidableEq, Repr

/-- `compute_quote` from src/pricing.py: tax is computed from the full
subtotal and rounded by `_round_money`; only the final total is rounded to
the nearest $5; the deposit is round-to-5 of `total * deposit_rate`. -/
def compute_quote (s : SettingsV1) (j : JobV1) : QuoteV1 :=
  let items := line_items_v1 s j
  let subtotal := items_sum_v1 items
  let tax := round_money_v1 s (subtotal * s.tax_rate)
  let raw_total := subtotal + tax
  let total := round_to_5 raw_total
  { line_items := items
    subtotal := subtotal
    tax := tax
    raw_total := raw_total
    total := total
    deposit := round_to_5 (total * s.deposit_rate)
    tax_rate := s.tax_rate
    deposit_rate := s.deposit_rate }

/-! ### Projection lemmas -/

@[simp] lemma line_items_eq (s : Settings) (q : QuoteCore) (mk : String) :
    (compute_quote_for_metal s q mk).line_items = quote_line_items s q mk :=
  rfl

@[simp] lemma subtotal_eq (s : Settings) (q : QuoteCore) (mk : String) :
    (compute_quote_for_metal s q mk).subtotal_pre_tax
      = items_sum (quote_line_items s q mk) := rfl

@[simp] lemma taxable_subtotal_eq (s : Settings) (q : QuoteCore)
    (mk : String) :
    (compute_quote_for_metal s q mk).taxable_subtotal_pre_tax
      = taxable_sum (quote_line_items s q mk) := rfl

@[simp] lemma tax_eq (s : Settings) (q : QuoteCore) (mk : String) :
    (compute_quote_for_metal s q mk).tax
      = taxable_sum (quote_line_items s q mk) * s.tax_rate := rfl

@[simp] lemma v1_line_items_eq (s : SettingsV1) (j : JobV1) :
    (compute_quote s j).line_items = line_items_v1 s j := rfl

@[simp] lemma v1_subtotal_eq (s : SettingsV1) (j : JobV1) :
    (compute_quote s j).subtotal = items_sum_v1 (line_items_v1 s j) := rfl

@[simp] lemma v1_tax_eq (s : SettingsV1) (j : JobV1) :
    (compute_quote s j).tax
      = round_money_v1 s (items_sum_v1 (line_items_v1 s j) * s.tax_rate) :=
  rfl

@[simp] lemma total_eq (s : Settings) (q : QuoteCore) (mk : String) :
    (compute_quote_for_metal s q mk).total_with_tax
      = items_sum (quote_line_items s q mk)
        + taxable_sum (quote_line_items s q mk) * s.tax_rate := rfl

@[simp] lemma deposit_eq (s : Settings) (q : QuoteCore) (mk : String) :
    (compute_quote_for_metal s q mk).deposit
      = items_sum (quote_line_items s q mk) * s.deposit_rate := rfl

@[simp] lemma rounded_subtotal_eq (s : Settings) (q : QuoteCore)
    (mk : String) :
    (compute_quote_for_metal s q mk).rounded_subtotal_pre_tax
      = round_money (items_sum (quote_line_items s q mk)) s.rounding := rfl

/-! ### Concrete inputs used by scenario claims, counterexamples and
witnesses -/

/-- Scenario configuration: 7% tax, 50% deposit, no rounding, $120/dwt. -/
def scenario_settings : Settings :=
  { tax_rate := 7/100, deposit_rate := 1/2, rounding := "none",
    metals_retail_per_dwt := fun _ => 120 }

/-- Scenario job: CAD fee $150 (taxable), 10 DWT of metal (taxable). -/
def scenario_core : QuoteCore :=
  { cad_fee := 150, metal_weight_value := 10, metal_weight_unit := "DWT" }

/-! ### Helper lemmas -/

lemma round_money_none (x : ℚ) : round_money x "none" = x := rfl

lemma items_sum_nil : items_sum [] = 0 := rfl

lemma items_sum_cons (a : LineItem) (l : List LineItem) :
    items_sum (a :: l) = a.amount + items_sum l := by
  simp [items_sum]

lemma taxable_sum_nil : taxable_sum [] = 0 := rfl

lemma taxable_sum_cons (a : LineItem) (l : List LineItem) :
    taxable_sum (a :: l)
      = (if a.taxable then a.amount else 0) + taxable_sum l := by
  by_cases h : a.taxable <;> simp [taxable_sum, List.filter_cons, h]

/-- On a list of items with non-negative amounts, the taxable sum is at
most the full sum, with equality exactly when every item of positive
amount is taxable. -/
lemma taxable_sum_le_and_eq_iff (l : List LineItem)
    (h : ∀ li ∈ l, 0 ≤ li.amount) :
    taxable_sum l ≤ items_sum l ∧
      (taxable_sum l = items_sum l ↔
        ∀ li ∈ l, 0 < li.amount → li.taxable = true) := by
  induction l with
  | nil => simp [items_sum_nil, taxable_sum_nil]
  | cons a l ih =>
    have ha : 0 ≤ a.amount := h a (by simp)
    have hrest : ∀ li ∈ l, 0 ≤ li.amount := fun li hli => h li (by simp [hli])
    obtain ⟨ih1, ih2⟩ := ih hrest
    rw [items_sum_cons, taxable_sum_cons]
    by_cases hA : a.taxable
    · constructor
      · simp only [hA, if_true]
        linarith
      · simp only [hA, if_true, add_right_cancel_iff, add_left_cancel_iff]
        constructor
        · intro heq li hli hpos
          rcases List.mem_cons.mp hli with rfl | hmem
          · exact hA
          · exact (ih2.mp (by linarith)) li hmem hpos
        · intro hall
          have : taxable_sum l = items_sum l :=
            ih2.mpr fun li hli hpos => hall li (List.mem_cons_of_mem a hli) hpos
          linarith
    · simp only [hA, if_false, Bool.false_eq_true]
      constructor
      · linarith
      · constructor
        · intro heq
          have hA0 : a.amount = 0 := by linarith
          intro li hli hpos
          rcases List.mem_cons.mp hli with rfl | hmem
          · exact absurd hA0 (by linarith)
          · exact (ih2.mp (by linarith)) li hmem hpos
        · intro hall
          have hnpos : ¬ 0 < a.amount := by
            intro hp
            exact hA (hall a (by simp) hp)
          have hA0 : a.amount = 0 := le_antisymm (not_lt.mp hnpos) ha
          have : taxable_sum l = items_sum l :=
            ih2.mpr fun li hli hpos => hall li (List.mem_cons_of_mem a hli) hpos
          linarith

/-- Filtering out the metal-kind item annihilates the metal segment. -/
lemma metal_items_filter_ne (s : Settings) (q : QuoteCore) (mk : String) :
    (metal_items s q mk).filter (fun li => li.kind != "metal") = [] := by
  unfold metal_items
  split <;> simp

/-- The `options` loop of `compute_quote_multi` is a map over the keys. -/
lemma multi_options_eq_map (s : Settings) (q : QuoteCore)
    (ks : List String) :
    multi_options s q ks = ks.map (compute_quote_for_metal s q) := by
  induction ks with
  | nil => rfl
  | cons k ks ih => simp [multi_options, ih]

/-! ### Claim theorems -/

/-- C4: in both pricing engines the pre-tax subtotal is exactly the sum of
the amounts of the emitted line items, with no hidden adjustment between
line-item assembly and the subtotal. -/
theorem C4_subtotal_is_exact_sum :
    (∀ (s : Settings) (q : QuoteCore) (mk : String),
      (compute_quote_for_metal s q mk).subtotal_pre_tax
        = (((compute_quote_for_metal s q mk).line_items).map
            LineItem.amount).sum) ∧
    (∀ (sv : SettingsV1) (j : JobV1),
      (compute_quote sv j).subtotal
        = (((compute_quote sv j).line_items).map LineItemV1.amount).sum) :=
  ⟨fun _ _ _ => rfl, fun _ _ => rfl⟩

/-- C10: `compute_quote_multi` returns one option per metal key, in input
order, the i-th being `compute_quote_for_metal` at the i-th key. -/
theorem C10_multi_is_pointwise_map :
    ∀ (s : Settings) (q : QuoteCore) (ks : List String),
      (compute_quote_multi s q ks).options.length = ks.length ∧
      (compute_quote_multi s q ks).options
        = ks.map (compute_quote_for_metal s q) := by
  intro s q ks
  have h : (compute_quote_multi s q ks).options
      = ks.map (compute_quote_for_metal s q) := multi_options_eq_map s q ks
  exact ⟨by rw [h, List.length_map], h⟩

/-- C2: for a fixed configuration and job, the non-metal ("shared") line
items of `compute_quote_for_metal` are identical across metal keys. -/
theorem C2_shared_items_metal_independent :
    ∀ (s : Settings) (q : QuoteCore) (a b : String),
      (compute_quote_for_metal s q a).line_items.filter
          (fun li => li.kind != "metal")
        = (compute_quote_for_metal s q b).line_items.filter
            (fun li => li.kind != "metal") := by
  intro s q a b
  simp only [line_items_eq, quote_line_items, List.filter_append,
    metal_items_filter_ne]

/-- Configuration for the C1 counterexample: default rounding rule
("nearest_dollar"), 7% tax. -/
def c1_settings : SettingsV1 := { tax_rate := 7/100, metals := fun _ => 0 }

/-- Job for the C1 counterexample: a single taxable CAD fee of $150. -/
def c1_job : JobV1 := { cad_fee := 150 }

/-- C1 (as stated) is false on `compute_quote`: with a $150 taxable CAD
fee, 7% tax and the default rounding rule, the engine's tax is
round(10.5) = $10 (banker's rounding), not the taxable subtotal times the
tax rate ($10.50). -/
theorem C1_counterexample :
    (compute_quote c1_settings c1_job).tax
      ≠ taxable_sum_v1 (compute_quote c1_settings c1_job).line_items
          * c1_settings.tax_rate := by
  have hitems : line_items_v1 c1_settings c1_job
      = [{ label := "CAD / design fee", amount := 150,
           taxable := some true }] := by
    norm_num [line_items_v1, cad_items_v1, metal_items_v1, center_items_v1,
      trim_items_v1, labor_items_v1, misc_items_v1, c1_settings, c1_job,
      round_money_v1, py_round]
  rw [v1_tax_eq, v1_line_items_eq, hitems]
  norm_num [items_sum_v1, taxable_sum_v1, round_money_v1, c1_settings,
    py_round]

/-- C1 amended: the exact, unrounded law
`tax = (sum of taxable line-item amounts) × tax_rate` holds for
`compute_quote_for_metal`; `compute_quote` instead computes its tax from
the full subtotal, ignoring per-line taxable flags, and passes it through
`_round_money`. -/
theorem C1_amended_tax_law :
    (∀ (s : Settings) (q : QuoteCore) (mk : String),
      (compute_quote_for_metal s q mk).tax
        = (((compute_quote_for_metal s q mk).line_items.filter
              LineItem.taxable).map LineItem.amount).sum * s.tax_rate) ∧
    (∀ (sv : SettingsV1) (j : JobV1),
      (compute_quote sv j).tax
        = round_money_v1 sv
            (((compute_quote sv j).line_items.map LineItemV1.amount).sum
              * sv.tax_rate)) :=
  ⟨fun _ _ _ => rfl, fun _ _ => rfl⟩

/-- C3: the end-to-end scenario — CAD $150 (taxable), metal $1,200
(taxable, 10 DWT at $120/dwt), tax 7%, deposit 50%, rounding "none" —
yields subtotal $1,350, taxable subtotal $1,350, tax $94.50, total
$1,444.50, deposit $675 (pre-tax subtotal × deposit rate), and the
subtotal is left unrounded. -/
theorem C3_scenario_totals :
    (compute_quote_for_metal scenario_settings scenario_core
        "14KY").subtotal_pre_tax = 1350 ∧
    (compute_quote_for_metal scenario_settings scenario_core
        "14KY").taxable_subtotal_pre_tax = 1350 ∧
    (compute_quote_for_metal scenario_settings scenario_core
        "14KY").tax = 94.5 ∧
    (compute_quote_for_metal scenario_settings scenario_core
        "14KY").total_with_tax = 1444.5 ∧
    (compute_quote_for_metal scenario_settings scenario_core
        "14KY").deposit = 675 ∧
    (compute_quote_for_metal scenario_settings scenario_core
        "14KY").rounded_subtotal_pre_tax = 1350 := by
  refine ⟨?_, ?_, ?_, ?_, ?_, ?_⟩ <;>
    norm_num [compute_quote_for_metal, quote_line_items, cad_items,
      metal_items, center_items, trim_items, center_labor_items,
      trim_setting_items, charge_items, items_sum, taxable_sum,
      scenario_settings, scenario_core, base_dwt, weight_to_dwt,
      effective_dwt, metal_amt, is_platinum_key, py_startswith, py_lower,
      py_upper, py_strip, chars_startswith, trim_total, setting_total,
      trim_setting_source, GRAMS_TO_DWT, round_money_none]

/-- Configuration for the C5 counterexample (rates all zero). -/
def c5_settings : Settings := { metals_retail_per_dwt := fun _ => 0 }

/-- Job for the C5 counterexample: a named center stone with a negative
price, flagged non-taxable. -/
def c5_core : QuoteCore :=
  { center_stone_desc := "x", center_stone_price := -50,
    tax_center_stone := false }

/-- C5 (as stated) is false: a named center stone with negative price and
taxable-flag false makes the taxable subtotal (0) exceed the pre-tax
subtotal (−50). -/
theorem C5_counterexample :
    (compute_quote_for_metal c5_settings c5_core "14KY").subtotal_pre_tax
      < (compute_quote_for_metal c5_settings c5_core
          "14KY").taxable_subtotal_pre_tax := by
  have hitems : quote_line_items c5_settings c5_core "14KY"
      = [{ label := "Center stone: x", amount := -50, taxable := false,
           kind := "center_stone", customer_supplied := some false }] := rfl
  rw [subtotal_eq, taxable_subtotal_eq, hitems]
  norm_num [items_sum, taxable_sum]

/-- C5 amended: when every emitted line item has a non-negative amount,
the taxable subtotal is at most the pre-tax subtotal, and the two are
equal iff every emitted line item with positive amount is taxable. -/
theorem C5_amended_taxable_le :
    ∀ (s : Settings) (q : QuoteCore) (mk : String),
      (∀ li ∈ (compute_quote_for_metal s q mk).line_items,
          0 ≤ li.amount) →
      (compute_quote_for_metal s q mk).taxable_subtotal_pre_tax
          ≤ (compute_quote_for_metal s q mk).subtotal_pre_tax ∧
        ((compute_quote_for_metal s q mk).taxable_subtotal_pre_tax
            = (compute_quote_for_metal s q mk).subtotal_pre_tax ↔
          ∀ li ∈ (compute_quote_for_metal s q mk).line_items,
            0 < li.amount → li.taxable = true) := by
  intro s q mk h
  simpa using taxable_sum_le_and_eq_iff (quote_line_items s q mk)
    (by simpa using h)

/-- Witness job for C5: a single $150 CAD fee. -/
def c5w_core : QuoteCore := { cad_fee := 150 }

/-- Witness for C5 at a concrete input with non-negative amounts. -/
theorem C5_witness :
    (∀ li ∈ (compute_quote_for_metal scenario_settings c5w_core
        "14KY").line_items, 0 ≤ li.amount) ∧
      (compute_quote_for_metal scenario_settings c5w_core
          "14KY").taxable_subtotal_pre_tax
        ≤ (compute_quote_for_metal scenario_settings c5w_core
            "14KY").subtotal_pre_tax :=
  ⟨by decide,
   (C5_amended_taxable_le scenario_settings c5w_core "14KY" (by decide)).1⟩

/-! Per-segment kind facts, used to show "no metal line item". -/

lemma cad_items_kind (q : QuoteCore) (li : LineItem)
    (h : li ∈ cad_items q) : li.kind = "cad" := by
  unfold cad_items at h
  split at h <;> simp_all

lemma center_items_kind (q : QuoteCore) (li : LineItem)
    (h : li ∈ center_items q) : li.kind = "center_stone" := by
  unfold center_items at h
  dsimp only at h
  split at h <;> simp_all

lemma trim_items_kind (q : QuoteCore) (li : LineItem)
    (h : li ∈ trim_items q) : li.kind = "trim_stones" := by
  unfold trim_items at h
  split at h <;> simp_all

lemma center_labor_items_kind (q : QuoteCore) (li : LineItem)
    (h : li ∈ center_labor_items q) : li.kind = "labor_center_setting" := by
  unfold center_labor_items at h
  split at h <;> simp_all

lemma trim_setting_items_kind (q : QuoteCore) (li : LineItem)
    (h : li ∈ trim_setting_items q) : li.kind = "labor_trim_setting" := by
  unfold trim_setting_items at h
  split at h <;> simp_all

lemma charge_items_kind (q : QuoteCore) (li : LineItem)
    (h : li ∈ charge_items q) :
    li.kind = "appraisal" ∨ li.kind = "engraving" ∨ li.kind = "shipping"
      ∨ li.kind = "rhodium" := by
  unfold charge_items at h
  simp only [List.mem_append] at h
  rcases h with ((h | h) | h) | h <;> (split at h <;> simp_all)

lemma metal_items_nil_of_nonpos (s : Settings) (q : QuoteCore)
    (mk : String) (h : base_dwt q ≤ 0) : metal_items s q mk = [] := by
  unfold metal_items
  rw [if_neg (not_lt.mpr h)]

/-- C6 (as stated) is false: `weight_to_dwt` does not fail closed to 0 on
negative input; it returns the negative value unchanged. -/
theorem C6_counterexample :
    weight_to_dwt (-5) "DWT" = -5 ∧ weight_to_dwt (-5) "DWT" ≠ 0 := by
  refine ⟨rfl, ?_⟩
  norm_num [weight_to_dwt, py_strip, py_lower, py_startswith,
    chars_startswith]

/-- C6 amended: `weight_to_dwt` returns the value unchanged for the base
unit and multiplies by 0.643 for grams, for every input including negative
ones; both engines treat a non-positive weight as "no metal line item"
(the v2 engine emits no item of kind "metal", the v1 engine emits no metal
line). -/
theorem C6_amended_weight_conversion :
    (∀ v : ℚ, weight_to_dwt v "DWT" = v) ∧
    (∀ v : ℚ, weight_to_dwt v "Grams" = v * GRAMS_TO_DWT) ∧
    (∀ (s : Settings) (q : QuoteCore) (mk : String), base_dwt q ≤ 0 →
      ∀ li ∈ (compute_quote_for_metal s q mk).line_items,
        li.kind ≠ "metal") ∧
    (∀ (sv : SettingsV1) (j : JobV1), j.metal_weight_value ≤ 0 →
      metal_items_v1 sv j = []) := by
  refine ⟨fun _ => rfl, fun _ => rfl, ?_, ?_⟩
  · intro s q mk h li hli
    rw [line_items_eq] at hli
    unfold quote_line_items at hli
    rw [metal_items_nil_of_nonpos s q mk h] at hli
    simp only [List.mem_append, List.not_mem_nil, false_or, or_false]
      at hli
    rcases hli with ((((h1 | h1) | h1) | h1) | h1) | h1
    · rw [cad_items_kind q li h1]; decide
    · rw [center_items_kind q li h1]; decide
    · rw [trim_items_kind q li h1]; decide
    · rw [center_labor_items_kind q li h1]; decide
    · rw [trim_setting_items_kind q li h1]; decide
    · rcases charge_items_kind q li h1 with h2 | h2 | h2 | h2 <;>
        (rw [h2]; decide)
  · intro sv j h
    unfold metal_items_v1
    rw [if_neg (not_lt.mpr h)]

/-- Witness job for C6: a negative metal weight. -/
def c6w_core : QuoteCore := { metal_weight_value := -3 }

/-- Witness for C6 at a concrete non-positive weight. -/
theorem C6_witness :
    base_dwt c6w_core ≤ 0 ∧
      ∀ li ∈ (compute_quote_for_metal scenario_settings c6w_core
          "14KY").line_items, li.kind ≠ "metal" :=
  ⟨by decide,
   C6_amended_weight_conversion.2.2.1 scenario_settings c6w_core "14KY"
     (by decide)⟩

/-- C7: with `platinum_density_ratio = 1.38` and a base-unit weight of 10,
a platinum-keyed metal gets effective weight 13.8, which times the
per-pennyweight rate forms the metal line amount (extra-fee toggle off);
the ratio is not applied to non-platinum keys. -/
theorem C7_platinum_density_scaling :
    ∀ (s : Settings) (q : QuoteCore) (mk : String),
      s.platinum_density_ratio = 138/100 →
      q.metal_weight_value = 10 →
      q.metal_weight_unit = "DWT" →
      is_platinum_key mk = true →
      q.add_platinum_extra_fee = false →
      effective_dwt s q mk = 138/10 ∧
        metal_amt s q mk = 138/10 * s.metals_retail_per_dwt mk ∧
        (metal_items s q mk).map LineItem.amount
          = [138/10 * s.metals_retail_per_dwt mk] ∧
        ∀ mk2 : String, is_platinum_key mk2 = false →
          effective_dwt s q mk2 = base_dwt q := by
  intro s q mk hratio hw hu hplat hfee
  have hbase : base_dwt q = 10 := by
    rw [base_dwt, hw, hu]
    rfl
  have heff : effective_dwt s q mk = 138/10 := by
    rw [effective_dwt, if_pos hplat, hbase, hratio]
    norm_num
  have hamt : metal_amt s q mk = 138/10 * s.metals_retail_per_dwt mk := by
    rw [metal_amt, heff]
    simp [hplat, hfee]
  refine ⟨heff, hamt, ?_, ?_⟩
  · rw [metal_items, if_pos (by rw [hbase]; norm_num)]
    simp [hamt]
  · intro mk2 h2
    rw [effective_dwt, if_neg (by simp [h2])]

/-- Witness configuration for C7: ratio 1.38, flat $100/dwt rates. -/
def plat_settings : Settings :=
  { metals_retail_per_dwt := fun _ => 100,
    platinum_density_ratio := 138/100 }

/-- Witness job for C7: 10 DWT, platinum extra fee toggled off. -/
def plat_core : QuoteCore :=
  { metal_weight_value := 10, add_platinum_extra_fee := false }

/-- Witness for C7 at a concrete platinum key. -/
theorem C7_witness :
    plat_settings.platinum_density_ratio = 138/100 ∧
      is_platinum_key "Platinum" = true ∧
      effective_dwt plat_settings plat_core "Platinum" = 138/10 :=
  ⟨rfl, rfl,
   (C7_platinum_density_scaling plat_settings plat_core "Platinum" rfl rfl
     rfl rfl rfl).1⟩

/-- The branch guard of the v1 center-stone emission, collected per center
type from the `compute_quote` branches (the line is emitted iff this value
is positive). -/
def center_gate_v1 (c : CenterV1) : ℚ :=
  if c.ctype = "Lab diamond (price/ct by range)" then c.ct * c.price_per_ct
  else if c.ctype = "Natural diamond (cost x markup)" then c.cost * c.markup
  else if c.ctype = "Colored / calibrated (cost x markup)" then
    c.cost * c.markup
  else if c.ctype = "Custom line item" then c.price
  else 0

/-- Configuration for the C8 counterexample. -/
def c8_settings : SettingsV1 := { metals := fun _ => 0 }

/-- Job for the C8 counterexample: a named custom center stone priced $0
and nothing else. -/
def c8_job : JobV1 :=
  { center := { ctype := "Custom line item", label := "Sapphire",
                price := 0 } }

/-- C8 (as stated) is false for `compute_quote`: a zero-price custom
center stone with a non-empty label emits no line item at all. -/
theorem C8_counterexample :
    (compute_quote c8_settings c8_job).line_items = [] ∧
      c8_job.center.label ≠ "" := by
  refine ⟨rfl, ?_⟩
  decide

/-- C8 amended: the "amount positive or non-empty description" emission
predicate governs the center-stone line of `compute_quote_for_metal`
only; in `compute_quote` the center line is emitted iff the computed
center amount (`center_gate_v1`) is positive, irrespective of any
description. -/
theorem C8_amended_center_emission :
    (∀ q : QuoteCore,
      center_items q ≠ [] ↔
        (py_strip q.center_stone_desc ≠ "" ∨ 0 < q.center_stone_price)) ∧
    (∀ (s : SettingsV1) (c : CenterV1),
      center_items_v1 s c ≠ [] ↔ 0 < center_gate_v1 c) := by
  constructor
  · intro q
    unfold center_items
    dsimp only
    split <;> simp_all
  · intro s c
    unfold center_items_v1 center_gate_v1
    split_ifs <;> simp_all

/-- The per-stone unit price of a v1 (mm-based) trim line, as the spec
phrases it: carat-per-stone times the effective retail-per-carat of the
resolved table row (0 when no row resolves). -/
def spec_trim_unit_price (s : SettingsV1) (it : TrimItemV1) : ℚ :=
  match trim_row_for_mm s it.mm with
  | some row =>
    row.ct_each * (if it.retail_per_ct_override = 0 then row.retail_per_ct
                   else it.retail_per_ct_override)
  | none => 0

/-- Job for the C9 scenario: trim lines {qty 3, $40 each} and
{qty 0, $999 each}. -/
def c9_core : QuoteCore :=
  { trim_stones := [{ desc := "", qty := 3, price_each := 40 },
                    { desc := "", qty := 0, price_each := 999 }] }

/-- C9: in both engines the aggregated trim amount is the sum of
`quantity × unit price` over exactly the qualifying lines (positive
quantity and price in the v2 engine; positive quantity and a resolvable
size-table row in the v1 mm-based engine), all other lines being skipped;
and the scenario {qty 3, $40} + {qty 0, $999} aggregates to exactly $120,
emitted as the "Trim stones" line amount. -/
theorem C9_trim_aggregation :
    (∀ rows : List TrimRow,
      trim_total rows
        = ((rows.filter fun r =>
              decide (0 < r.qty) && decide (0 < r.price_each)).map
            fun r => (r.qty : ℚ) * r.price_each).sum) ∧
    (∀ (s : SettingsV1) (items : List TrimItemV1),
      trim_total_v1 s items
        = ((items.filter fun it =>
              decide (0 < it.qty) && (trim_row_for_mm s it.mm).isSome).map
            fun it => (it.qty : ℚ) * spec_trim_unit_price s it).sum) ∧
    trim_total c9_core.trim_stones = 120 ∧
    (trim_items c9_core).map LineItem.amount = [120] := by
  have h2 : ∀ (s : SettingsV1) (items : List TrimItemV1),
      trim_total_v1 s items
        = ((items.filter fun it =>
              decide (0 < it.qty) && (trim_row_for_mm s it.mm).isSome).map
            fun it => (it.qty : ℚ) * spec_trim_unit_price s it).sum := by
    intro s items
    induction items with
    | nil => rfl
    | cons it rest ih =>
      by_cases h1 : 0 < it.qty
      · cases hrow : trim_row_for_mm s it.mm with
        | some row =>
          simp [trim_total_v1, List.filter_cons, h1, hrow, ih,
            spec_trim_unit_price]
          ring_nf
        | none =>
          simp [trim_total_v1, List.filter_cons, h1, hrow, ih]
      · simp [trim_total_v1, List.filter_cons, h1, ih]
  have htot : trim_total c9_core.trim_stones = 120 := by
    norm_num [c9_core, trim_total]
  refine ⟨?_, h2, htot, ?_⟩
  · intro rows
    induction rows with
    | nil => rfl
    | cons r rs ih =>
      by_cases hq : 0 < r.qty <;> by_cases hp : 0 < r.price_each <;>
        simp [trim_total, List.filter_cons, hq, hp, ih]
  · rw [trim_items, if_pos (by rw [htot]; norm_num), htot]
    rfl

end KCJ
